import Mathlib

/-!
Verification of the donked-diary personal journal application.

This file gives a shallow embedding of the application's data model
(`app/models.py`), its notification engine and mutation handlers
(`app/main.py`), and proves the specified properties about them.

Dates are embedded as integers (day numbers): Python `datetime.date` values
are totally ordered and support subtraction in days and addition of a
`timedelta`, which is exactly the structure of `Int` used here.
-/

namespace Diary

/-- Calendar dates, embedded as day numbers.  `d2 - d1` is the number of
days between them (`(a - b).days` in Python); `d + 3` is
`d + timedelta(days=3)`. -/
abbrev Day := Int

/-- `models.py` `Task`: id, title, priority, optional due date, description,
done flag. -/
structure Task where
  id : Nat
  title : String
  priority : String
  due : Option Day
  desc : String
  done : Bool
deriving DecidableEq, Repr

/-- `models.py` `Show`: id, title, current season, current episode in the
season, episodes per season, total watched episodes. -/
structure Show where
  id : Nat
  title : String
  season : Nat
  episode : Nat
  total : Nat
  total_watched_episodes : Nat
deriving DecidableEq, Repr

/-- `models.py` `Book`: id, title, author, total pages, pages read. -/
structure Book where
  id : Nat
  title : String
  author : String
  pages_total : Nat
  pages_read : Nat
deriving DecidableEq, Repr

/-- `models.py` `LearningLog`: id, topic, minutes, notes, log date. -/
structure LearningLog where
  id : Nat
  topic : String
  minutes : Nat
  notes : String
  log_date : Day
deriving DecidableEq, Repr

/-- `models.py` `Notification`: id, type ("deadline" / "achievement" /
"motivation"), title, message, read flag, creation date, optional reference
to the triggering record. -/
structure Notification where
  id : Nat
  type : String
  title : String
  message : String
  is_read : Bool
  created_date : Day
  related_id : Option Nat
deriving DecidableEq, Repr

/-- The SQLite database contents: one list of rows per table, plus the
store-assigned id counters (SQLite assigns fresh integer primary keys on
insert). -/
structure State where
  tasks : List Task
  shows : List Show
  books : List Book
  logs : List LearningLog
  notifs : List Notification
  nextTaskId : Nat
  nextShowId : Nat
  nextBookId : Nat
  nextLogId : Nat
  nextNotifId : Nat
deriving DecidableEq, Repr

/-- The ambient process environment: the wall-clock date that
`datetime.date.today()` returns.  `main.py` reads it at the top of
`check_deadline_reminders` (line 51) and `check_achievements` (line 103);
it is not a parameter of those Python functions. -/
structure Env where
  today : Day
deriving DecidableEq, Repr

/-- A freshly created database: empty tables, id counters at 1 (SQLite
rowids start at 1). -/
def emptyState : State :=
  { tasks := [], shows := [], books := [], logs := [], notifs := []
    nextTaskId := 1, nextShowId := 1, nextBookId := 1, nextLogId := 1, nextNotifId := 1 }

/-- `session.add(notification); session.commit()`: append the new row with a
fresh store-assigned id. -/
def insertNotif (s : State) (mk : Nat → Notification) : State :=
  { s with notifs := s.notifs ++ [mk s.nextNotifId], nextNotifId := s.nextNotifId + 1 }

/-! ## Notification engine (`main.py` lines 42-191) -/

/-- The filter of the deadline query (`main.py` lines 54-61): due is set,
`today <= due <= today + 3`, and not done. -/
def dueSoon (today : Day) (t : Task) : Bool :=
  match t.due with
  | none => false
  | some d => decide (today ≤ d) && decide (d ≤ today + 3) && !t.done

/-- The message chosen for a deadline reminder (`main.py` lines 64-73),
depending on `days_left = (task.due - today).days`. -/
def deadlineMessage (today : Day) (t : Task) : String :=
  match t.due with
  | none => ""
  | some d =>
    let days_left : Int := d - today
    if days_left = 0 then "⏰ Сегодня дедлайн задачи: " ++ t.title
    else if days_left = 1 then "⚠️ Завтра дедлайн задачи: " ++ t.title
    else "📅 Через " ++ toString days_left ++ " дней дедлайн задачи: " ++ t.title

/-- The dedup query of the deadline rule (`main.py` lines 76-82): an existing
notification with type "deadline", this task's id and today's date. -/
def deadlineMatch (tid : Nat) (today : Day) (n : Notification) : Bool :=
  n.type == "deadline" && n.related_id == some tid && n.created_date == today

/-- The notification row inserted by the deadline rule (`main.py` lines
85-91); `created_date` defaults to `date.today()`. -/
def mkDeadlineNotif (msg : String) (tid : Nat) (today : Day) (nid : Nat) : Notification :=
  { id := nid, type := "deadline", title := "Напоминание о дедлайне", message := msg
    is_read := false, created_date := today, related_id := some tid }

/-- One iteration of the loop over `upcoming_tasks` (`main.py` lines 63-92):
re-check existence against the current session state, insert if absent. -/
def deadlineStep (today : Day) (s : State) (t : Task) : State :=
  match t.due with
  | none => s
  | some _ =>
    if (s.notifs.find? (deadlineMatch t.id today)).isSome then s
    else insertNotif s (mkDeadlineNotif (deadlineMessage today t) t.id today)

/-- `check_deadline_reminders` (`main.py` lines 42-92).  `env` carries the
ambient date read by `date.today()` at line 51. -/
def check_deadline_reminders (env : Env) (s : State) : State :=
  let today := env.today
  (s.tasks.filter (dueSoon today)).foldl (deadlineStep today) s

/-- The filter of the done-today query (`main.py` lines 106-111):
`done == True` and `due == today`. -/
def doneToday (today : Day) (t : Task) : Bool :=
  t.done && t.due == some today

/-- The dedup query of the multi-task achievement rule (`main.py` lines
118-124): type "achievement", the fixed title, today's date. -/
def multiMatch (today : Day) (n : Notification) : Bool :=
  n.type == "achievement" && n.title == "Множественные задачи выполнены"
    && n.created_date == today

/-- The notification row inserted by the multi-task achievement rule
(`main.py` lines 127-131); it carries no `related_id`. -/
def mkMultiNotif (cnt : Nat) (today : Day) (nid : Nat) : Notification :=
  { id := nid, type := "achievement", title := "Множественные задачи выполнены"
    message := "🎉 Отлично! Вы выполнили " ++ toString cnt ++ " задач сегодня!"
    is_read := false, created_date := today, related_id := none }

/-- The multi-task achievement rule (`main.py` lines 106-133). -/
def multiRule (today : Day) (s : State) : State :=
  let cnt := (s.tasks.filter (doneToday today)).length
  if 3 ≤ cnt then
    if (s.notifs.find? (multiMatch today)).isSome then s
    else insertNotif s (mkMultiNotif cnt today)
  else s

/-- The filter of the completed-books query (`main.py` lines 136-141):
`pages_read >= pages_total` and `pages_total > 0`. -/
def bookDone (b : Book) : Bool :=
  decide (b.pages_total ≤ b.pages_read) && decide (0 < b.pages_total)

/-- The dedup query of the book-completed rule (`main.py` lines 148-153):
type "achievement" and this book's id — no date bound. -/
def bookMatch (bid : Nat) (n : Notification) : Bool :=
  n.type == "achievement" && n.related_id == some bid

/-- The notification row inserted by the book-completed rule (`main.py`
lines 156-161). -/
def mkBookNotif (b : Book) (today : Day) (nid : Nat) : Notification :=
  { id := nid, type := "achievement", title := "Книга завершена"
    message := "📚 Поздравляем! Вы завершили книгу «" ++ b.title ++ "»!"
    is_read := false, created_date := today, related_id := some b.id }

/-- One iteration of the loop over `completed_books` (`main.py` lines
143-163). -/
def bookStep (today : Day) (s : State) (b : Book) : State :=
  if (s.notifs.find? (bookMatch b.id)).isSome then s
  else insertNotif s (mkBookNotif b today)

/-- The book-completed rule (`main.py` lines 136-163). -/
def bookRule (today : Day) (s : State) : State :=
  (s.books.filter bookDone).foldl (bookStep today) s

/-- The dedup query of the learning-motivation rule (`main.py` lines
176-182). -/
def learnMatch (today : Day) (n : Notification) : Bool :=
  n.type == "motivation" && n.title == "Интенсивное обучение"
    && n.created_date == today

/-- The notification row inserted by the learning-motivation rule
(`main.py` lines 185-189). -/
def mkLearnNotif (total : Nat) (today : Day) (nid : Nat) : Notification :=
  { id := nid, type := "motivation", title := "Интенсивное обучение"
    message := "🐍 Потрясающе! Вы изучали Python " ++ toString total ++ " минут сегодня!"
    is_read := false, created_date := today, related_id := none }

/-- The learning-motivation rule (`main.py` lines 166-191): sum the minutes
of today's learning logs; notify at 60 or more. -/
def learnRule (today : Day) (s : State) : State :=
  let total := ((s.logs.filter (fun l => l.log_date == today)).map (·.minutes)).sum
  if 60 ≤ total then
    if (s.notifs.find? (learnMatch today)).isSome then s
    else insertNotif s (mkLearnNotif total today)
  else s

/-- `check_achievements` (`main.py` lines 94-191): the three achievement
rules in source order, each seeing the inserts of the previous one.  `env`
carries the ambient date read by `date.today()` at line 103. -/
def check_achievements (env : Env) (s : State) : State :=
  let today := env.today
  learnRule today (bookRule today (multiRule today s))

/-- One load-time pass of the notification engine (`main.py` lines 245-246):
`check_deadline_reminders()` then `check_achievements()`. -/
def fullEngine (env : Env) (s : State) : State :=
  check_achievements env (check_deadline_reminders env s)

/-! ## Counting notifications by dedup key (used to state the claims) -/

/-- Number of deadline notifications for task `tid` created on `today`. -/
def countDl (s : State) (tid : Nat) (today : Day) : Nat :=
  s.notifs.countP (deadlineMatch tid today)

/-- Number of multi-task achievement notifications created on `today`. -/
def countMulti (s : State) (today : Day) : Nat :=
  s.notifs.countP (multiMatch today)

/-- Number of achievement notifications referring to book `bid` (any
date). -/
def countBook (s : State) (bid : Nat) : Nat :=
  s.notifs.countP (bookMatch bid)

/-! ## Record creation forms (`main.py` form submit handlers) -/

/-- Python `str.strip()`: drop leading and trailing whitespace. -/
def pyStrip (x : String) : String :=
  String.mk (((x.data.dropWhile Char.isWhitespace).reverse.dropWhile Char.isWhitespace).reverse)

/-- The task form submit handler `task_form_db` (`main.py` lines 664-680):
on submit, if the stripped title is non-empty (Python truthiness of
`title.strip()`), insert the task with stripped title and description;
otherwise do nothing. -/
def task_form_db (title priority : String) (due : Day) (desc : String) (s : State) : State :=
  if pyStrip title ≠ "" then
    { s with
      tasks := s.tasks ++ [{ id := s.nextTaskId, title := pyStrip title, priority := priority
                             due := some due, desc := pyStrip desc, done := false }]
      nextTaskId := s.nextTaskId + 1 }
  else s

/-- The show form submit handler `show_form_db` (`main.py` lines 730-746). -/
def show_form_db (title : String) (season episode total : Nat) (s : State) : State :=
  if pyStrip title ≠ "" then
    { s with
      shows := s.shows ++ [{ id := s.nextShowId, title := pyStrip title, season := season
                             episode := episode, total := total, total_watched_episodes := 0 }]
      nextShowId := s.nextShowId + 1 }
  else s

/-- The book form submit handler `book_form_db` (`main.py` lines 799-815). -/
def book_form_db (title author : String) (pages_total pages_read : Nat) (s : State) : State :=
  if pyStrip title ≠ "" then
    { s with
      books := s.books ++ [{ id := s.nextBookId, title := pyStrip title, author := pyStrip author
                             pages_total := pages_total, pages_read := pages_read }]
      nextBookId := s.nextBookId + 1 }
  else s

/-- The learning form submit handler `learning_form_db` (`main.py` lines
860-871); `log_date` is the ambient `date.today()`. -/
def learning_form_db (env : Env) (topic : String) (minutes : Nat) (notes : String) (s : State) : State :=
  if pyStrip topic ≠ "" then
    { s with
      logs := s.logs ++ [{ id := s.nextLogId, topic := pyStrip topic, minutes := minutes
                           notes := pyStrip notes, log_date := env.today }]
      nextLogId := s.nextLogId + 1 }
  else s

/-! ## Mutation handlers (`main.py` button handlers)

Each handler does `obj = session.get(Model, id); if obj: mutate/delete`.
With unique primary keys this is the relational UPDATE/DELETE `WHERE id = i`,
embedded below as a conditional map or a filter; when no row has the id,
both are the identity. -/

/-- UPDATE the rows whose id is `i` with `f`. -/
def updateWhere (getId : α → Nat) (i : Nat) (f : α → α) (l : List α) : List α :=
  l.map fun o => if getId o = i then f o else o

/-- DELETE the rows whose id is `i`. -/
def deleteWhere (getId : α → Nat) (i : Nat) (l : List α) : List α :=
  l.filter fun o => getId o ≠ i

/-- The "Готово"/"Снять" toggle (`main.py` lines 701-708): flip `done`. -/
def task_done (i : Nat) (s : State) : State :=
  { s with tasks := updateWhere Task.id i (fun o => { o with done := !o.done }) s.tasks }

/-- The task delete button (`main.py` lines 710-716). -/
def task_del (i : Nat) (s : State) : State :=
  { s with tasks := deleteWhere Task.id i s.tasks }

/-- The per-row mutation of the "➕ Серия" handler (`main.py` lines 765-766):
`episode += 1; total_watched_episodes += 1` in a single commit. -/
def epAdvance (o : Show) : Show :=
  { o with episode := o.episode + 1, total_watched_episodes := o.total_watched_episodes + 1 }

/-- The per-row mutation of the "Новый сезон" handler (`main.py` lines
775-776): `season += 1; episode = 0`. -/
def newSeasonFn (o : Show) : Show :=
  { o with season := o.season + 1, episode := 0 }

/-- The "➕ Серия" (advance episode) handler (`main.py` lines 761-769). -/
def show_next (i : Nat) (s : State) : State :=
  { s with shows := updateWhere Show.id i epAdvance s.shows }

/-- The "Новый сезон" handler (`main.py` lines 771-779). -/
def show_new_season (i : Nat) (s : State) : State :=
  { s with shows := updateWhere Show.id i newSeasonFn s.shows }

/-- The show delete button (`main.py` lines 781-787). -/
def show_del (i : Nat) (s : State) : State :=
  { s with shows := deleteWhere Show.id i s.shows }

/-- The "➕ Прогресс" (add pages) handler (`main.py` lines 833-840):
`pages_read += delta`. -/
def book_inc (i : Nat) (delta : Nat) (s : State) : State :=
  { s with books := updateWhere Book.id i (fun o => { o with pages_read := o.pages_read + delta }) s.books }

/-- The book delete button (`main.py` lines 842-848). -/
def book_del (i : Nat) (s : State) : State :=
  { s with books := deleteWhere Book.id i s.books }

/-- The learning-log delete button (`main.py` lines 891-897). -/
def learn_del (i : Nat) (s : State) : State :=
  { s with logs := deleteWhere LearningLog.id i s.logs }

/-- `mark_notification_read` (`main.py` lines 205-217): set `is_read`. -/
def mark_notification_read (i : Nat) (s : State) : State :=
  { s with notifs := updateWhere Notification.id i (fun n => { n with is_read := true }) s.notifs }

/-- The "↩️ Непрочитано" handler (`main.py` lines 1128-1135): clear
`is_read`. -/
def mark_notification_unread (i : Nat) (s : State) : State :=
  { s with notifs := updateWhere Notification.id i (fun n => { n with is_read := false }) s.notifs }

/-- The notification delete button (`main.py` lines 1138-1144). -/
def notif_del (i : Nat) (s : State) : State :=
  { s with notifs := deleteWhere Notification.id i s.notifs }

/-! ## Task list query (`main.py` lines 685-688)

`ORDER BY done ASC, (due IS NULL) ASC, due ASC`: incomplete tasks first,
then rows with a due date before rows without, then by due date.  The query
returns the rows sorted by this lexicographic key. -/

/-- The boolean comparator realising the ORDER BY key of the task list
query: first `done` ascending (false before true), then `due IS NULL`
ascending (dated rows before undated), then `due` ascending (rows in the
undated group all tie on the third key). -/
def taskLEb (a b : Task) : Bool :=
  let da : Nat := if a.done then 1 else 0
  let db : Nat := if b.done then 1 else 0
  let na : Nat := if a.due.isNone then 1 else 0
  let nb : Nat := if b.due.isNone then 1 else 0
  decide (da < db) || (da == db
    && (decide (na < nb) || (na == nb && decide (a.due.getD 0 ≤ b.due.getD 0))))

/-- The ordering relation of the task list query. -/
def taskLE (a b : Task) : Prop := taskLEb a b = true

instance : DecidableRel taskLE :=
  fun a b => inferInstanceAs (Decidable (taskLEb a b = true))

/-- The task list query (`main.py` lines 685-688): all tasks, ordered. -/
def taskListQuery (s : State) : List Task :=
  List.insertionSort taskLE s.tasks

/-! ## Global search (`main.py` lines 318-326)

SQLAlchemy `column.contains(q)` filters on substring containment; per the
specification the record store's containment is case-sensitive and the
store itself is an external collaborator (spec §1, §4.3). -/

/-- Whether `ns` is a prefix of the first list. -/
def startsWithChars : List Char → List Char → Bool
  | _, [] => true
  | [], _ :: _ => false
  | c :: cs, d :: ds => c == d && startsWithChars cs ds

/-- Whether `ns` occurs as a contiguous substring of the first list. -/
def containsChars : List Char → List Char → Bool
  | [], ns => ns.isEmpty
  | c :: cs, ns => startsWithChars (c :: cs) ns || containsChars cs ns

/-- `column.contains(q)`: `q` occurs as a substring of `hay`. -/
def strContains (hay q : String) : Bool :=
  containsChars hay.data q.data

/-- Search over tasks: `Task.title.contains(q)` (`main.py` line 320). -/
def searchTasks (q : String) (s : State) : List Task :=
  s.tasks.filter fun t => strContains t.title q

/-- Search over shows: `Show.title.contains(q)` (`main.py` line 322). -/
def searchShows (q : String) (s : State) : List Show :=
  s.shows.filter fun sh => strContains sh.title q

/-- Search over books: `Book.title.contains(q) | Book.author.contains(q)`
(`main.py` line 324). -/
def searchBooks (q : String) (s : State) : List Book :=
  s.books.filter fun b => strContains b.title q || strContains b.author q

/-- Search over learning logs: `LearningLog.topic.contains(q) |
LearningLog.notes.contains(q)` (`main.py` line 326). -/
def searchLogs (q : String) (s : State) : List LearningLog :=
  s.logs.filter fun l => strContains l.topic q || strContains l.notes q

/-! ## Helper lemmas -/

theorem find?_isSome_iff_countP (p : α → Bool) (l : List α) :
    (l.find? p).isSome ↔ l.countP p ≠ 0 := by
  rw [List.find?_isSome]
  constructor
  · rintro ⟨x, hx, hpx⟩ h0
    exact (List.countP_eq_zero.mp h0 x hx) hpx
  · intro h
    by_contra hne
    push_neg at hne
    exact h (List.countP_eq_zero.mpr hne)

theorem countP_insertNotif (p : Notification → Bool) (s : State) (mk : Nat → Notification) :
    (insertNotif s mk).notifs.countP p
      = s.notifs.countP p + (if p (mk s.nextNotifId) then 1 else 0) := by
  simp [insertNotif, List.countP_append, List.countP_cons]

theorem deadlineMatch_mkDeadline (tid tid2 nid : Nat) (today d2 : Day) (msg : String) :
    deadlineMatch tid today (mkDeadlineNotif msg tid2 d2 nid) = true ↔ tid2 = tid ∧ d2 = today := by
  simp [deadlineMatch, mkDeadlineNotif]

theorem deadlineMatch_mkMulti (tid nid cnt : Nat) (today d2 : Day) :
    deadlineMatch tid today (mkMultiNotif cnt d2 nid) = false := rfl

theorem deadlineMatch_mkBook (tid nid : Nat) (b : Book) (today d2 : Day) :
    deadlineMatch tid today (mkBookNotif b d2 nid) = false := rfl

theorem deadlineMatch_mkLearn (tid nid total : Nat) (today d2 : Day) :
    deadlineMatch tid today (mkLearnNotif total d2 nid) = false := rfl

theorem multiMatch_mkMulti (nid cnt : Nat) (today d2 : Day) :
    multiMatch today (mkMultiNotif cnt d2 nid) = true ↔ d2 = today := by
  simp [multiMatch, mkMultiNotif]

theorem multiMatch_mkDeadline (nid tid : Nat) (today d2 : Day) (msg : String) :
    multiMatch today (mkDeadlineNotif msg tid d2 nid) = false := rfl

theorem multiMatch_mkBook (nid : Nat) (b : Book) (today d2 : Day) :
    multiMatch today (mkBookNotif b d2 nid) = false := rfl

theorem multiMatch_mkLearn (nid total : Nat) (today d2 : Day) :
    multiMatch today (mkLearnNotif total d2 nid) = false := rfl

theorem bookMatch_mkBook (bid nid : Nat) (b : Book) (d2 : Day) :
    bookMatch bid (mkBookNotif b d2 nid) = true ↔ b.id = bid := by
  simp [bookMatch, mkBookNotif]

theorem bookMatch_mkDeadline (bid nid tid : Nat) (d2 : Day) (msg : String) :
    bookMatch bid (mkDeadlineNotif msg tid d2 nid) = false := rfl

theorem bookMatch_mkMulti (bid nid cnt : Nat) (d2 : Day) :
    bookMatch bid (mkMultiNotif cnt d2 nid) = false := rfl

theorem bookMatch_mkLearn (bid nid total : Nat) (d2 : Day) :
    bookMatch bid (mkLearnNotif total d2 nid) = false := rfl

theorem learnMatch_mkDeadline (nid tid : Nat) (today d2 : Day) (msg : String) :
    learnMatch today (mkDeadlineNotif msg tid d2 nid) = false := rfl

theorem learnMatch_mkMulti (nid cnt : Nat) (today d2 : Day) :
    learnMatch today (mkMultiNotif cnt d2 nid) = false := rfl

theorem learnMatch_mkBook (nid : Nat) (b : Book) (today d2 : Day) :
    learnMatch today (mkBookNotif b d2 nid) = false := rfl

theorem countP_eq_zero_of_find?_not_isSome {p : Notification → Bool} {l : List Notification}
    (h : ¬((l.find? p).isSome = true)) : l.countP p = 0 := by
  by_contra h0
  exact h ((find?_isSome_iff_countP p l).mpr h0)

theorem dueSoon_isSome {today : Day} {t : Task} (h : dueSoon today t = true) : t.due.isSome := by
  unfold dueSoon at h
  cases hd : t.due with
  | none => rw [hd] at h; cases h
  | some d => rfl

theorem deadlineStep_tasks (today : Day) (s : State) (t : Task) :
    (deadlineStep today s t).tasks = s.tasks := by
  unfold deadlineStep
  cases t.due with
  | none => rfl
  | some d => dsimp only; split <;> rfl

theorem deadlineStep_books (today : Day) (s : State) (t : Task) :
    (deadlineStep today s t).books = s.books := by
  unfold deadlineStep
  cases t.due with
  | none => rfl
  | some d => dsimp only; split <;> rfl

theorem deadlineFold_tasks (today : Day) (ts : List Task) (s : State) :
    ((ts.foldl (deadlineStep today) s)).tasks = s.tasks := by
  induction ts generalizing s with
  | nil => rfl
  | cons t ts ih => rw [List.foldl_cons, ih, deadlineStep_tasks]

theorem deadlineFold_books (today : Day) (ts : List Task) (s : State) :
    ((ts.foldl (deadlineStep today) s)).books = s.books := by
  induction ts generalizing s with
  | nil => rfl
  | cons t ts ih => rw [List.foldl_cons, ih, deadlineStep_books]

theorem countDl_deadlineStep_of_ne {t : Task} {tid : Nat} (today : Day) (s : State)
    (htid : t.id ≠ tid) :
    countDl (deadlineStep today s t) tid today = countDl s tid today := by
  unfold deadlineStep countDl
  cases t.due with
  | none => rfl
  | some d =>
    dsimp only
    split
    · rfl
    · rw [countP_insertNotif, if_neg, Nat.add_zero]
      intro hmk
      exact htid ((deadlineMatch_mkDeadline _ _ _ _ _ _).mp hmk).1

theorem countDl_deadlineStep_existing {s : State} {tid : Nat} {today : Day} (t : Task)
    (h : countDl s tid today ≠ 0) :
    countDl (deadlineStep today s t) tid today = countDl s tid today := by
  by_cases hid : t.id = tid
  · unfold deadlineStep
    cases t.due with
    | none => rfl
    | some d =>
      dsimp only
      split
      · rfl
      · next hns =>
        exfalso
        apply hns
        rw [hid]
        exact (find?_isSome_iff_countP _ _).mpr h
  · exact countDl_deadlineStep_of_ne today s hid

theorem countDl_deadlineStep_new {s : State} {t : Task} {tid : Nat} {today : Day}
    (hid : t.id = tid) (hdue : t.due.isSome) (h0 : countDl s tid today = 0) :
    countDl (deadlineStep today s t) tid today = 1 := by
  unfold deadlineStep
  cases hd : t.due with
  | none => rw [hd] at hdue; cases hdue
  | some d =>
    dsimp only
    split
    · next hs =>
      exfalso
      rw [hid] at hs
      exact (find?_isSome_iff_countP _ _).mp hs h0
    · show countDl _ tid today = 1
      unfold countDl
      rw [countP_insertNotif, if_pos, show s.notifs.countP (deadlineMatch tid today) = 0 from h0]
      exact (deadlineMatch_mkDeadline _ _ _ _ _ _).mpr ⟨hid, rfl⟩

theorem countDl_deadlineFold_ne {tid : Nat} {today : Day} (ts : List Task) (s : State)
    (h : countDl s tid today ≠ 0) :
    countDl (ts.foldl (deadlineStep today) s) tid today = countDl s tid today := by
  induction ts generalizing s with
  | nil => rfl
  | cons t ts ih =>
    rw [List.foldl_cons]
    have hstep := countDl_deadlineStep_existing t h
    rw [ih _ (by rw [hstep]; exact h), hstep]

theorem countDl_deadlineFold_create {tid : Nat} {today : Day} (ts : List Task) (s : State)
    (h0 : countDl s tid today = 0) (hex : ∃ t ∈ ts, t.id = tid ∧ t.due.isSome) :
    countDl (ts.foldl (deadlineStep today) s) tid today = 1 := by
  induction ts generalizing s with
  | nil => rcases hex with ⟨t, ht, _⟩; cases ht
  | cons t ts ih =>
    rw [List.foldl_cons]
    by_cases hid : t.id = tid
    · cases hdue : t.due.isSome with
      | true =>
        have h1 := countDl_deadlineStep_new hid hdue h0
        rw [countDl_deadlineFold_ne ts _ (by rw [h1]; exact Nat.one_ne_zero), h1]
      | false =>
        have hstep : deadlineStep today s t = s := by
          unfold deadlineStep
          cases hd : t.due with
          | none => rfl
          | some d => rw [hd] at hdue; cases hdue
        rw [hstep]
        apply ih _ h0
        rcases hex with ⟨t', ht', hid', hdue'⟩
        rcases List.mem_cons.mp ht' with h | h
        · subst h; rw [hdue'] at hdue; cases hdue
        · exact ⟨t', h, hid', hdue'⟩
    · refine ih _ ?_ ?_
      · rw [countDl_deadlineStep_of_ne today s hid]; exact h0
      · rcases hex with ⟨t', ht', hid', hdue'⟩
        rcases List.mem_cons.mp ht' with h | h
        · exact absurd (h ▸ hid') hid
        · exact ⟨t', h, hid', hdue'⟩


theorem deadlineFold_id {today : Day} (ts : List Task) (s : State)
    (hall : ∀ t ∈ ts, t.due.isSome → (s.notifs.find? (deadlineMatch t.id today)).isSome) :
    ts.foldl (deadlineStep today) s = s := by
  induction ts with
  | nil => rfl
  | cons t ts ih =>
    rw [List.foldl_cons]
    have hstep : deadlineStep today s t = s := by
      unfold deadlineStep
      cases hd : t.due with
      | none => rfl
      | some d =>
        dsimp only
        rw [if_pos (hall t (List.mem_cons_self t ts) (by rw [hd]; rfl))]
    rw [hstep]
    exact ih fun t' ht' => hall t' (List.mem_cons_of_mem t ht')

/-! ## Claim theorems -/

/-- C1: for every task whose due date is set, falls within
[today, today + 3] inclusive, and which is not done, running
`check_deadline_reminders` twice in succession on the same day leaves
exactly one deadline notification keyed by
(type=deadline, relatedId=task.id, createdDate=today), and the second run
changes nothing: creation is skipped whenever a matching notification
already exists.  (The hypothesis `countDl s t.id e.today ≤ 1` says the
starting store does not already hold duplicate rows for this dedup key,
which the engine itself never produces.) -/
theorem deadline_rule_idempotent (e : Env) (s : State) (t : Task) (d : Day)
    (hmem : t ∈ s.tasks) (hdue : t.due = some d)
    (h1 : e.today ≤ d) (h2 : d ≤ e.today + 3) (hdone : t.done = false)
    (hcount : countDl s t.id e.today ≤ 1) :
    countDl (check_deadline_reminders e (check_deadline_reminders e s)) t.id e.today = 1
      ∧ check_deadline_reminders e (check_deadline_reminders e s)
          = check_deadline_reminders e s := by
  have hds : dueSoon e.today t = true := by
    simp [dueSoon, hdue, hdone, h1, h2]
  have hfil : t ∈ s.tasks.filter (dueSoon e.today) := List.mem_filter.mpr ⟨hmem, hds⟩
  have hrun : check_deadline_reminders e s
      = (s.tasks.filter (dueSoon e.today)).foldl (deadlineStep e.today) s := rfl
  have hpos : ∀ t' ∈ s.tasks.filter (dueSoon e.today),
      countDl (check_deadline_reminders e s) t'.id e.today ≠ 0 := by
    intro t' ht'
    rw [hrun]
    by_cases h0 : countDl s t'.id e.today = 0
    · rw [countDl_deadlineFold_create _ _ h0
        ⟨t', ht', rfl, dueSoon_isSome (List.mem_filter.mp ht').2⟩]
      exact Nat.one_ne_zero
    · rw [countDl_deadlineFold_ne _ _ h0]; exact h0
  have hsame : check_deadline_reminders e (check_deadline_reminders e s)
      = check_deadline_reminders e s := by
    have htasks : (check_deadline_reminders e s).tasks = s.tasks := by
      rw [hrun]; exact deadlineFold_tasks _ _ _
    show ((check_deadline_reminders e s).tasks.filter (dueSoon e.today)).foldl
        (deadlineStep e.today) (check_deadline_reminders e s) = _
    rw [htasks]
    exact deadlineFold_id _ _ fun t' ht' hdue' =>
      (find?_isSome_iff_countP _ _).mpr (hpos t' ht')
  refine ⟨?_, hsame⟩
  rw [hsame, hrun]
  by_cases h0 : countDl s t.id e.today = 0
  · exact countDl_deadlineFold_create _ _ h0 ⟨t, hfil, rfl, by rw [hdue]; rfl⟩
  · rw [countDl_deadlineFold_ne _ _ h0]
    omega

/-- A one-task store used to instantiate the deadline idempotence claim. -/
def sDeadline : State :=
  { emptyState with tasks := [{ id := 1, title := "задача", priority := "Средний"
                                due := some 0, desc := "", done := false }] }

/-- Witness for C1: the deadline idempotence theorem at a concrete store
whose single task is due today. -/
theorem deadline_rule_idempotent_witness :
    countDl (check_deadline_reminders ⟨0⟩ (check_deadline_reminders ⟨0⟩ sDeadline)) 1 0 = 1
      ∧ check_deadline_reminders ⟨0⟩ (check_deadline_reminders ⟨0⟩ sDeadline)
          = check_deadline_reminders ⟨0⟩ sDeadline :=
  deadline_rule_idempotent ⟨0⟩ sDeadline
    { id := 1, title := "задача", priority := "Средний", due := some 0, desc := "", done := false }
    0 (by decide) rfl (by decide) (by decide) rfl (by decide)

theorem multiRule_eq (today : Day) (s : State) :
    multiRule today s
      = if 3 ≤ (s.tasks.filter (doneToday today)).length then
          (if (s.notifs.find? (multiMatch today)).isSome then s
           else insertNotif s (mkMultiNotif (s.tasks.filter (doneToday today)).length today))
        else s := rfl

/-- C3: the multi-task achievement rule counts tasks with done=true and
due=today; with 2 or fewer it creates nothing (the state is unchanged);
with 3 or more and no matching notification yet it creates exactly one
achievement notification with the fixed title and today's date; and
whenever a matching notification already exists (however the count grew
since), the rule changes nothing. -/
theorem multi_rule_threshold (s : State) (today : Day) :
    ((s.tasks.filter (doneToday today)).length ≤ 2 → multiRule today s = s)
    ∧ (3 ≤ (s.tasks.filter (doneToday today)).length → countMulti s today = 0 →
        countMulti (multiRule today s) today = 1)
    ∧ (countMulti s today ≠ 0 → multiRule today s = s) := by
  refine ⟨?_, ?_, ?_⟩
  · intro hle
    rw [multiRule_eq, if_neg]
    omega
  · intro h3 h0
    rw [multiRule_eq, if_pos h3,
      if_neg (fun hs => (find?_isSome_iff_countP _ _).mp hs h0)]
    unfold countMulti at h0 ⊢
    rw [countP_insertNotif, h0,
      if_pos ((multiMatch_mkMulti _ _ _ _).mpr rfl)]
  · intro hne
    rw [multiRule_eq]
    split
    · rw [if_pos ((find?_isSome_iff_countP _ _).mpr hne)]
    · rfl

/-- A store with three tasks done today, used to instantiate the
multi-task achievement claim. -/
def sMulti : State :=
  { emptyState with tasks :=
      [{ id := 1, title := "а", priority := "Средний", due := some 0, desc := "", done := true },
       { id := 2, title := "б", priority := "Средний", due := some 0, desc := "", done := true },
       { id := 3, title := "в", priority := "Средний", due := some 0, desc := "", done := true }] }

/-- Witness for C3: with the three done-today tasks of `sMulti` the rule
creates exactly one notification, and with only the first two it creates
none. -/
theorem multi_rule_threshold_witness :
    countMulti (multiRule 0 sMulti) 0 = 1
      ∧ multiRule 0 { sMulti with tasks := sMulti.tasks.take 2 }
          = { sMulti with tasks := sMulti.tasks.take 2 } :=
  ⟨(multi_rule_threshold sMulti 0).2.1 (by decide) (by decide),
   (multi_rule_threshold { sMulti with tasks := sMulti.tasks.take 2 } 0).1 (by decide)⟩

theorem countBook_deadlineStep (today : Day) (s : State) (t : Task) (bid : Nat) :
    countBook (deadlineStep today s t) bid = countBook s bid := by
  unfold deadlineStep countBook
  cases t.due with
  | none => rfl
  | some d =>
    dsimp only
    split
    · rfl
    · rw [countP_insertNotif, bookMatch_mkDeadline, if_neg (by simp), Nat.add_zero]

theorem countBook_deadlineFold (today : Day) (ts : List Task) (s : State) (bid : Nat) :
    countBook (ts.foldl (deadlineStep today) s) bid = countBook s bid := by
  induction ts generalizing s with
  | nil => rfl
  | cons t ts ih => rw [List.foldl_cons, ih, countBook_deadlineStep]

theorem countBook_multiRule (today : Day) (s : State) (bid : Nat) :
    countBook (multiRule today s) bid = countBook s bid := by
  rw [multiRule_eq]
  split
  · split
    · rfl
    · unfold countBook
      rw [countP_insertNotif, bookMatch_mkMulti, if_neg (by simp), Nat.add_zero]
  · rfl

theorem multiRule_books (today : Day) (s : State) :
    (multiRule today s).books = s.books := by
  rw [multiRule_eq]
  split
  · split <;> rfl
  · rfl

theorem learnRule_eq (today : Day) (s : State) :
    learnRule today s
      = if 60 ≤ ((s.logs.filter (fun l => l.log_date == today)).map (·.minutes)).sum then
          (if (s.notifs.find? (learnMatch today)).isSome then s
           else insertNotif s
             (mkLearnNotif ((s.logs.filter (fun l => l.log_date == today)).map (·.minutes)).sum today))
        else s := rfl

theorem countBook_learnRule (today : Day) (s : State) (bid : Nat) :
    countBook (learnRule today s) bid = countBook s bid := by
  rw [learnRule_eq]
  split
  · split
    · rfl
    · unfold countBook
      rw [countP_insertNotif, bookMatch_mkLearn, if_neg (by simp), Nat.add_zero]
  · rfl

theorem countBook_bookStep_of_ne {b : Book} {bid : Nat} (today : Day) (s : State)
    (hbid : b.id ≠ bid) :
    countBook (bookStep today s b) bid = countBook s bid := by
  unfold bookStep countBook
  split
  · rfl
  · rw [countP_insertNotif, if_neg, Nat.add_zero]
    intro hmk
    exact hbid ((bookMatch_mkBook _ _ _ _).mp hmk)

theorem countBook_bookStep_existing {s : State} {bid : Nat} (today : Day) (b : Book)
    (h : countBook s bid ≠ 0) :
    countBook (bookStep today s b) bid = countBook s bid := by
  by_cases hbid : b.id = bid
  · unfold bookStep
    split
    · rfl
    · next hns =>
      exfalso
      apply hns
      rw [hbid]
      exact (find?_isSome_iff_countP _ _).mpr h
  · exact countBook_bookStep_of_ne today s hbid

theorem countBook_bookStep_new {s : State} {b : Book} {bid : Nat} (today : Day)
    (hbid : b.id = bid) (h0 : countBook s bid = 0) :
    countBook (bookStep today s b) bid = 1 := by
  unfold bookStep
  split
  · next hs =>
    exfalso
    rw [hbid] at hs
    exact (find?_isSome_iff_countP _ _).mp hs h0
  · show countBook _ bid = 1
    unfold countBook
    rw [countP_insertNotif, if_pos ((bookMatch_mkBook _ _ _ _).mpr hbid),
      show s.notifs.countP (bookMatch bid) = 0 from h0]

theorem countBook_bookFold_ne {bid : Nat} (today : Day) (bs : List Book) (s : State)
    (h : countBook s bid ≠ 0) :
    countBook (bs.foldl (bookStep today) s) bid = countBook s bid := by
  induction bs generalizing s with
  | nil => rfl
  | cons b bs ih =>
    rw [List.foldl_cons]
    have hstep := countBook_bookStep_existing today b h
    rw [ih _ (by rw [hstep]; exact h), hstep]

theorem countBook_bookFold_create {bid : Nat} (today : Day) (bs : List Book) (s : State)
    (h0 : countBook s bid = 0) (hex : ∃ b ∈ bs, b.id = bid) :
    countBook (bs.foldl (bookStep today) s) bid = 1 := by
  induction bs generalizing s with
  | nil => rcases hex with ⟨b, hb, _⟩; cases hb
  | cons b bs ih =>
    rw [List.foldl_cons]
    by_cases hbid : b.id = bid
    · have h1 := countBook_bookStep_new today hbid h0
      rw [countBook_bookFold_ne today bs _ (by rw [h1]; exact Nat.one_ne_zero), h1]
    · refine ih _ ?_ ?_
      · rw [countBook_bookStep_of_ne today s hbid]; exact h0
      · rcases hex with ⟨b', hb', hbid'⟩
        rcases List.mem_cons.mp hb' with h | h
        · exact absurd (h ▸ hbid') hbid
        · exact ⟨b', h, hbid'⟩

theorem countBook_fullEngine_keep (e : Env) (st : State) (bid : Nat)
    (h : countBook st bid ≠ 0) :
    countBook (fullEngine e st) bid = countBook st bid := by
  show countBook (learnRule e.today (bookRule e.today (multiRule e.today
    (check_deadline_reminders e st)))) bid = countBook st bid
  have hdl : countBook (check_deadline_reminders e st) bid = countBook st bid :=
    countBook_deadlineFold e.today _ st bid
  have hmu := countBook_multiRule e.today (check_deadline_reminders e st) bid
  rw [countBook_learnRule]
  show countBook ((((multiRule e.today (check_deadline_reminders e st)).books.filter
    bookDone)).foldl (bookStep e.today) _) bid = _
  rw [countBook_bookFold_ne e.today _ _ (by rw [hmu, hdl]; exact h), hmu, hdl]

theorem countBook_engineFold_keep (es : List Env) (st : State) (bid : Nat)
    (h : countBook st bid = 1) :
    countBook (es.foldl (fun st2 e2 => fullEngine e2 st2) st) bid = 1 := by
  induction es generalizing st with
  | nil => exact h
  | cons e2 es ih =>
    rw [List.foldl_cons]
    refine ih _ ?_
    rw [countBook_fullEngine_keep e2 st bid (by rw [h]; exact Nat.one_ne_zero)]
    exact h

/-- C2: for every book with `pagesTotal > 0` and `pagesRead ≥ pagesTotal`
and no achievement notification for it yet, one engine pass creates exactly
one achievement notification with relatedId=book.id, and — because the
dedup key (type=achievement, relatedId=book.id) carries no date bound —
any further sequence of engine passes, on any later dates, still leaves
exactly one such notification. -/
theorem book_rule_once_ever (e : Env) (s : State) (b : Book)
    (hmem : b ∈ s.books) (htot : 0 < b.pages_total) (hread : b.pages_total ≤ b.pages_read)
    (h0 : countBook s b.id = 0) :
    countBook (fullEngine e s) b.id = 1
      ∧ ∀ es : List Env,
          countBook (es.foldl (fun st e2 => fullEngine e2 st) (fullEngine e s)) b.id = 1 := by
  have hone : countBook (fullEngine e s) b.id = 1 := by
    show countBook (learnRule e.today (bookRule e.today (multiRule e.today
      (check_deadline_reminders e s)))) b.id = 1
    have hdl : countBook (check_deadline_reminders e s) b.id = 0 :=
      (countBook_deadlineFold e.today _ s b.id).trans h0
    have hmu : countBook (multiRule e.today (check_deadline_reminders e s)) b.id = 0 := by
      rw [countBook_multiRule]; exact hdl
    have hbooks : (multiRule e.today (check_deadline_reminders e s)).books = s.books := by
      rw [multiRule_books]
      exact deadlineFold_books e.today _ s
    rw [countBook_learnRule]
    apply countBook_bookFold_create e.today _ _ hmu
    refine ⟨b, ?_, rfl⟩
    rw [hbooks]
    refine List.mem_filter.mpr ⟨hmem, ?_⟩
    simp [bookDone, htot, hread]
  exact ⟨hone, fun es => countBook_engineFold_keep es _ _ hone⟩

/-- A one-book store with the book fully read, used to instantiate the
book-completed achievement claim. -/
def sBook : State :=
  { emptyState with books :=
      [{ id := 1, title := "книга", author := "автор", pages_total := 100, pages_read := 100 }] }

/-- Witness for C2: the completed book of `sBook` gets exactly one
achievement notification, and two further engine passes on later dates
leave it at exactly one. -/
theorem book_rule_once_ever_witness :
    countBook (fullEngine ⟨0⟩ sBook) 1 = 1
      ∧ countBook ([(⟨1⟩ : Env), ⟨2⟩].foldl (fun st e2 => fullEngine e2 st)
          (fullEngine ⟨0⟩ sBook)) 1 = 1 :=
  ⟨(book_rule_once_ever ⟨0⟩ sBook
      { id := 1, title := "книга", author := "автор", pages_total := 100, pages_read := 100 }
      (by decide) (by decide) (by decide) (by decide)).1,
   (book_rule_once_ever ⟨0⟩ sBook
      { id := 1, title := "книга", author := "автор", pages_total := 100, pages_read := 100 }
      (by decide) (by decide) (by decide) (by decide)).2 [⟨1⟩, ⟨2⟩]⟩

/-- C4: for each create form of Task, Show, Book and LearningLog, if the
required string field (title, or topic for LearningLog) is empty after
stripping leading/trailing whitespace, the submit changes nothing (the
action is rejected with no record stored); otherwise exactly the new record
is appended, carrying the stripped, non-empty title/topic. -/
theorem create_validation (e : Env) (title priority desc author notes topic : String)
    (due : Day) (season episode total pt pr minutes : Nat) (s : State) :
    (pyStrip title = "" →
        task_form_db title priority due desc s = s
          ∧ show_form_db title season episode total s = s
          ∧ book_form_db title author pt pr s = s)
    ∧ (pyStrip topic = "" → learning_form_db e topic minutes notes s = s)
    ∧ (pyStrip title ≠ "" →
        (task_form_db title priority due desc s).tasks
            = s.tasks ++ [{ id := s.nextTaskId, title := pyStrip title, priority := priority
                            due := some due, desc := pyStrip desc, done := false }]
          ∧ (show_form_db title season episode total s).shows
            = s.shows ++ [{ id := s.nextShowId, title := pyStrip title, season := season
                            episode := episode, total := total, total_watched_episodes := 0 }]
          ∧ (book_form_db title author pt pr s).books
            = s.books ++ [{ id := s.nextBookId, title := pyStrip title, author := pyStrip author
                            pages_total := pt, pages_read := pr }])
    ∧ (pyStrip topic ≠ "" →
        (learning_form_db e topic minutes notes s).logs
            = s.logs ++ [{ id := s.nextLogId, topic := pyStrip topic, minutes := minutes
                           notes := pyStrip notes, log_date := e.today }]) := by
  refine ⟨?_, ?_, ?_, ?_⟩
  · intro h
    refine ⟨?_, ?_, ?_⟩ <;>
      · simp only [task_form_db, show_form_db, book_form_db]
        rw [if_neg (by rw [h]; exact fun hc => hc rfl)]
  · intro h
    simp only [learning_form_db]
    rw [if_neg (by rw [h]; exact fun hc => hc rfl)]
  · intro h
    refine ⟨?_, ?_, ?_⟩ <;>
      · simp only [task_form_db, show_form_db, book_form_db]
        rw [if_pos h]
  · intro h
    simp only [learning_form_db]
    rw [if_pos h]

/-- Witness for C4: a whitespace-only title is rejected with no state
change; a padded title is stored stripped. -/
theorem create_validation_witness :
    pyStrip "   " = ""
      ∧ task_form_db "   " "Средний" 0 "" emptyState = emptyState
      ∧ pyStrip " чтение " ≠ ""
      ∧ (task_form_db " чтение " "Средний" 0 " глава 1 " emptyState).tasks
          = [{ id := 1, title := "чтение", priority := "Средний"
               due := some 0, desc := "глава 1", done := false }] :=
  ⟨by decide,
   ((create_validation ⟨0⟩ "   " "Средний" "" "" "" "" 0 1 0 0 0 0 0 emptyState).1
      (by decide)).1,
   by decide,
   by
    have h := ((create_validation ⟨0⟩ " чтение " "Средний" " глава 1 " "" "" "" 0 1 0 0 0 0 0
      emptyState).2.2.1 (by decide)).1
    rw [h]
    decide⟩

/-- C5 counterexample: the Python engine functions take no date argument —
`today` is read from the ambient clock by `date.today()` inside
`check_deadline_reminders` (main.py line 51) and `check_achievements`
(line 103).  On the same store contents, with nothing supplied by the
caller, the engine behaves differently under two ambient dates, so "today"
is computed internally, not caller-supplied. -/
theorem engine_reads_ambient_clock :
    fullEngine ⟨0⟩ { emptyState with
        tasks := [{ id := 1, title := "задача", priority := "Средний"
                    due := some 0, desc := "", done := false }] }
      ≠ fullEngine ⟨100⟩ { emptyState with
        tasks := [{ id := 1, title := "задача", priority := "Средний"
                    due := some 0, desc := "", done := false }] } := by
  decide

/-- C5 (amended): the engine computes "today" internally via the ambient
clock (`date.today()`), not from a caller-supplied argument; its behaviour
is a deterministic function of the store contents and that ambient date:
two runs over the same store state under the same ambient date produce the
same notifications. -/
theorem engine_deterministic (e1 e2 : Env) (s : State) (h : e1.today = e2.today) :
    fullEngine e1 s = fullEngine e2 s := by
  cases e1
  cases e2
  cases h
  rfl

/-- Witness for the amended C5. -/
theorem engine_deterministic_witness :
    (⟨5⟩ : Env).today = (⟨5⟩ : Env).today
      ∧ fullEngine ⟨5⟩ emptyState = fullEngine ⟨5⟩ emptyState :=
  ⟨rfl, engine_deterministic ⟨5⟩ ⟨5⟩ emptyState rfl⟩

/-- C6: "advance episode" increments `episode` and `totalWatchedEpisodes`
together and touches nothing else; "new season" zeroes `episode`,
increments `season` and leaves `totalWatchedEpisodes` alone; and from
(season=1, episode=0, totalWatched=0), advancing twice and then starting a
new season yields (season=2, episode=0, totalWatched=2). -/
theorem show_advance_and_new_season (o : Show) (i : Nat) (name : String) (tot : Nat) :
    (epAdvance o).episode = o.episode + 1
    ∧ (epAdvance o).total_watched_episodes = o.total_watched_episodes + 1
    ∧ (epAdvance o).season = o.season
    ∧ (epAdvance o).title = o.title
    ∧ (epAdvance o).total = o.total
    ∧ (newSeasonFn o).episode = 0
    ∧ (newSeasonFn o).season = o.season + 1
    ∧ (newSeasonFn o).total_watched_episodes = o.total_watched_episodes
    ∧ (newSeasonFn o).title = o.title
    ∧ (newSeasonFn o).total = o.total
    ∧ (show_new_season i (show_next i (show_next i
        { emptyState with shows := [{ id := i, title := name, season := 1, episode := 0
                                      total := tot, total_watched_episodes := 0 }] }))).shows
        = [{ id := i, title := name, season := 2, episode := 0
             total := tot, total_watched_episodes := 2 }] := by
  refine ⟨rfl, rfl, rfl, rfl, rfl, rfl, rfl, rfl, rfl, rfl, ?_⟩
  simp [show_next, show_new_season, updateWhere, epAdvance, newSeasonFn]

theorem updateWhere_nomatch (getId : α → Nat) (i : Nat) (f : α → α) (l : List α)
    (h : ∀ o ∈ l, getId o ≠ i) : updateWhere getId i f l = l := by
  induction l with
  | nil => rfl
  | cons a l ih =>
    unfold updateWhere
    rw [List.map_cons, if_neg (h a (List.mem_cons_self a l))]
    have h2 := ih fun o ho => h o (List.mem_cons_of_mem a ho)
    unfold updateWhere at h2
    rw [h2]

theorem deleteWhere_nomatch (getId : α → Nat) (i : Nat) (l : List α)
    (h : ∀ o ∈ l, getId o ≠ i) : deleteWhere getId i l = l :=
  List.filter_eq_self.mpr fun a ha => decide_eq_true (h a ha)

/-- C8: every mutation handler (toggle done, advance episode, new season,
add pages, mark read/unread, delete) invoked with an id that refers to no
existing record raises nothing and leaves the entire store unchanged: the
Python handlers all do `obj = session.get(...); if obj:` and fall through
silently. -/
theorem missing_id_noop (i delta : Nat) (s : State) :
    ((∀ o ∈ s.tasks, o.id ≠ i) → task_done i s = s ∧ task_del i s = s)
    ∧ ((∀ o ∈ s.shows, o.id ≠ i) →
        show_next i s = s ∧ show_new_season i s = s ∧ show_del i s = s)
    ∧ ((∀ o ∈ s.books, o.id ≠ i) → book_inc i delta s = s ∧ book_del i s = s)
    ∧ ((∀ o ∈ s.logs, o.id ≠ i) → learn_del i s = s)
    ∧ ((∀ n ∈ s.notifs, n.id ≠ i) →
        mark_notification_read i s = s ∧ mark_notification_unread i s = s
          ∧ notif_del i s = s) := by
  refine ⟨fun h => ⟨?_, ?_⟩, fun h => ⟨?_, ?_, ?_⟩, fun h => ⟨?_, ?_⟩, fun h => ?_,
    fun h => ⟨?_, ?_, ?_⟩⟩
  · unfold task_done; rw [updateWhere_nomatch _ _ _ _ h]
  · unfold task_del; rw [deleteWhere_nomatch _ _ _ h]
  · unfold show_next; rw [updateWhere_nomatch _ _ _ _ h]
  · unfold show_new_season; rw [updateWhere_nomatch _ _ _ _ h]
  · unfold show_del; rw [deleteWhere_nomatch _ _ _ h]
  · unfold book_inc; rw [updateWhere_nomatch _ _ _ _ h]
  · unfold book_del; rw [deleteWhere_nomatch _ _ _ h]
  · unfold learn_del; rw [deleteWhere_nomatch _ _ _ h]
  · unfold mark_notification_read; rw [updateWhere_nomatch _ _ _ _ h]
  · unfold mark_notification_unread; rw [updateWhere_nomatch _ _ _ _ h]
  · unfold notif_del; rw [deleteWhere_nomatch _ _ _ h]

/-- Witness for C8: on an empty store no id exists, and the handlers all
leave the store unchanged. -/
theorem missing_id_noop_witness :
    task_done 7 emptyState = emptyState
      ∧ show_next 7 emptyState = emptyState
      ∧ book_inc 7 3 emptyState = emptyState
      ∧ mark_notification_read 7 emptyState = emptyState :=
  ⟨((missing_id_noop 7 3 emptyState).1 (by intro o ho; cases ho)).1,
   ((missing_id_noop 7 3 emptyState).2.1 (by intro o ho; cases ho)).1,
   ((missing_id_noop 7 3 emptyState).2.2.1 (by intro o ho; cases ho)).1,
   ((missing_id_noop 7 3 emptyState).2.2.2.2 (by intro o ho; cases ho)).1⟩

/-- C10: the dedup queries of the four rules are pairwise disjoint on the
notifications the rules build — a notification created by one rule never
satisfies another rule's existence check (the keys differ in type, fixed
title, or whether relatedId is set), so no rule ever suppresses a different
rule. -/
theorem dedup_keys_disjoint (tid bid nid cnt total : Nat) (today d2 : Day)
    (msg : String) (b : Book) :
    deadlineMatch tid today (mkMultiNotif cnt d2 nid) = false
    ∧ deadlineMatch tid today (mkBookNotif b d2 nid) = false
    ∧ deadlineMatch tid today (mkLearnNotif total d2 nid) = false
    ∧ multiMatch today (mkDeadlineNotif msg tid d2 nid) = false
    ∧ multiMatch today (mkBookNotif b d2 nid) = false
    ∧ multiMatch today (mkLearnNotif total d2 nid) = false
    ∧ bookMatch bid (mkDeadlineNotif msg tid d2 nid) = false
    ∧ bookMatch bid (mkMultiNotif cnt d2 nid) = false
    ∧ bookMatch bid (mkLearnNotif total d2 nid) = false
    ∧ learnMatch today (mkDeadlineNotif msg tid d2 nid) = false
    ∧ learnMatch today (mkMultiNotif cnt d2 nid) = false
    ∧ learnMatch today (mkBookNotif b d2 nid) = false :=
  ⟨rfl, rfl, rfl, rfl, rfl, rfl, rfl, rfl, rfl, rfl, rfl, rfl⟩

theorem startsWithChars_iff (n l : List Char) :
    startsWithChars l n = true ↔ ∃ r, l = n ++ r := by
  induction n generalizing l with
  | nil =>
    constructor
    · intro _; exact ⟨l, rfl⟩
    · intro _; cases l <;> rfl
  | cons d ds ih =>
    cases l with
    | nil =>
      constructor
      · intro h; cases h
      · rintro ⟨r, hr⟩; cases hr
    | cons c cs =>
      show (c == d && startsWithChars cs ds) = true ↔ _
      rw [Bool.and_eq_true, beq_iff_eq, ih]
      constructor
      · rintro ⟨hc, r, hr⟩
        exact ⟨r, by rw [hc, hr]; rfl⟩
      · rintro ⟨r, hr⟩
        rw [List.cons_append] at hr
        injection hr with h1 h2
        exact ⟨h1, r, h2⟩

theorem containsChars_iff (n hay : List Char) :
    containsChars hay n = true ↔ ∃ pre post, hay = pre ++ n ++ post := by
  induction hay with
  | nil =>
    show n.isEmpty = true ↔ _
    constructor
    · intro h
      rw [List.isEmpty_iff] at h
      exact ⟨[], [], by rw [h]; rfl⟩
    · rintro ⟨pre, post, hpp⟩
      rw [List.isEmpty_iff]
      rcases List.append_eq_nil.mp (List.append_eq_nil.mp hpp.symm).1 with ⟨-, hn⟩
      exact hn
  | cons c cs ih =>
    show (startsWithChars (c :: cs) n || containsChars cs n) = true ↔ _
    rw [Bool.or_eq_true, startsWithChars_iff, ih]
    constructor
    · rintro (⟨r, hr⟩ | ⟨pre, post, hpp⟩)
      · exact ⟨[], r, by rw [List.nil_append]; exact hr⟩
      · exact ⟨c :: pre, post, by rw [List.cons_append, List.cons_append, ← hpp]⟩
    · rintro ⟨pre, post, hpp⟩
      cases pre with
      | nil => exact Or.inl ⟨post, by rw [List.nil_append] at hpp; exact hpp⟩
      | cons p ps =>
        rw [List.cons_append, List.cons_append] at hpp
        injection hpp with h1 h2
        exact Or.inr ⟨ps, post, h2⟩

/-- C9: the global search returns exactly the records where the query
occurs as a (case-sensitive) contiguous substring of Task.title,
Show.title, Book.title or Book.author, LearningLog.topic or
LearningLog.notes. -/
theorem search_contract (q : String) (s : State) :
    (∀ t : Task, t ∈ searchTasks q s ↔
        t ∈ s.tasks ∧ ∃ pre post, t.title.data = pre ++ q.data ++ post)
    ∧ (∀ sh : Show, sh ∈ searchShows q s ↔
        sh ∈ s.shows ∧ ∃ pre post, sh.title.data = pre ++ q.data ++ post)
    ∧ (∀ b : Book, b ∈ searchBooks q s ↔
        b ∈ s.books ∧ ((∃ pre post, b.title.data = pre ++ q.data ++ post)
          ∨ (∃ pre post, b.author.data = pre ++ q.data ++ post)))
    ∧ (∀ l : LearningLog, l ∈ searchLogs q s ↔
        l ∈ s.logs ∧ ((∃ pre post, l.topic.data = pre ++ q.data ++ post)
          ∨ (∃ pre post, l.notes.data = pre ++ q.data ++ post))) := by
  refine ⟨fun t => ?_, fun sh => ?_, fun b => ?_, fun l => ?_⟩ <;>
    simp [searchTasks, searchShows, searchBooks, searchLogs, List.mem_filter,
      strContains, containsChars_iff]

theorem taskLE_total (a b : Task) : taskLE a b ∨ taskLE b a := by
  unfold taskLE taskLEb
  cases a.done <;> cases b.done <;> cases ha : a.due.isNone <;> cases hb : b.due.isNone <;>
    simp [ha, hb] <;> exact Int.le_total _ _

theorem taskLE_trans (a b c : Task) : taskLE a b → taskLE b c → taskLE a c := by
  unfold taskLE taskLEb
  cases a.done <;> cases b.done <;> cases c.done <;> cases ha : a.due.isNone <;>
    cases hb : b.due.isNone <;> cases hc : c.due.isNone <;> simp [ha, hb, hc] <;>
    exact fun h1 h2 => le_trans h1 h2

instance : IsTotal Task taskLE := ⟨taskLE_total⟩

instance : IsTrans Task taskLE := ⟨fun a b c => taskLE_trans a b c⟩

/-- C7: the task list query returns all tasks (a permutation of the store)
sorted by done ascending, then dated-before-undated, then due ascending;
on the spec's example [(done, due=01-01), (todo, due=null),
(todo, due=01-05), (todo, due=01-02)] it returns [due=01-02, due=01-05,
due=null, the done task]. -/
theorem task_list_order (s : State) :
    (taskListQuery s).Perm s.tasks
    ∧ List.Sorted taskLE (taskListQuery s)
    ∧ taskListQuery { emptyState with tasks :=
        [{ id := 1, title := "a", priority := "Средний", due := some 20240101, desc := "", done := true },
         { id := 2, title := "b", priority := "Средний", due := none, desc := "", done := false },
         { id := 3, title := "c", priority := "Средний", due := some 20240105, desc := "", done := false },
         { id := 4, title := "d", priority := "Средний", due := some 20240102, desc := "", done := false }] }
      = [{ id := 4, title := "d", priority := "Средний", due := some 20240102, desc := "", done := false },
         { id := 3, title := "c", priority := "Средний", due := some 20240105, desc := "", done := false },
         { id := 2, title := "b", priority := "Средний", due := none, desc := "", done := false },
         { id := 1, title := "a", priority := "Средний", due := some 20240101, desc := "", done := true }] := by
  refine ⟨List.perm_insertionSort _ _, List.sorted_insertionSort _ _, ?_⟩
  decide

end Diary
